import Mathlib

/-!
Verification of the typed-property module (`cybox/common/properties.py`).

The module defines `BaseProperty` (a value plus optional qualifying
attributes) with per-datatype variants (String, Integer, DateTime, ...),
one equality, a "plain value" simplification, and map-form / tree-form
serialization.  We embed the module shallowly:

* Python values flowing through the module are `PyVal` (None, bool, int,
  str, datetime, list).  Unset attributes are `PyVal.vNone`, matching the
  Python convention `field is None`.
* Fallible Python code (constructors that can raise `ValueError`,
  `TypeError`, `NameError`, `AttributeError`) is embedded in
  `Except PyError _`.
* Each variant class becomes a constructor of `Variant`; the class's
  `_parse_value` / `_serialize_value` static-method resolution becomes
  `parseVariantValue` / `serializeValue`.
* `PatternFieldGroup` (the capability mixin) and the
  `normalize_to_xml`/`denormalize_from_xml` seam are part of this
  repository but are not among the analyzed sources; those few
  definitions are modelled from the spec and marked as such.
-/

set_option autoImplicit false

deriving instance DecidableEq for Except

namespace Cybox

/-- A timestamp in its canonical textual form.  Modelled from the spec:
the external `datetime`/`dateutil` pair is only used through
`isoformat` (emit canonical text) and `dateutil.parser.parse`
(parse well-formed text, raise `ValueError` otherwise), so a timestamp
is identified with its well-formed canonical text. -/
def TsText : Type := {s : String // (!s.data.isEmpty && s.data.all fun c => c.isDigit || c == '-' || c == ':' || c == 'T') = true}

instance : DecidableEq TsText := fun a b =>
  Subtype.instDecidableEq a b

/-- A Python value as it flows through the properties module:
`None`, a bool, an int, a str, a `datetime` object, or a list. -/
inductive PyVal : Type where
  | vNone : PyVal
  | vBool : Bool → PyVal
  | vInt : Int → PyVal
  | vStr : String → PyVal
  | vDT : TsText → PyVal
  | vList : List PyVal → PyVal

/-- Python errors the module can raise. -/
inductive PyError : Type where
  /-- `ValueError`: the spec's ValueConversion failure (bad `int()` /
  timestamp text). -/
  | valueError : PyError
  /-- `TypeError`: operation on an unsupported type. -/
  | typeError : PyError
  /-- `NameError`: reference to an undefined name (the misspelled
  `BaseProeprty`). -/
  | nameError : PyError
  /-- `AttributeError`: attribute access on an object lacking it. -/
  | attributeError : PyError
  deriving DecidableEq

mutual

/-- Structural (Lean-level) boolean equality on `PyVal`; used only to
build the `DecidableEq` instance. -/
def PyVal.beq : PyVal → PyVal → Bool
  | .vNone, .vNone => true
  | .vBool a, .vBool b => a == b
  | .vInt a, .vInt b => a == b
  | .vStr a, .vStr b => a == b
  | .vDT a, .vDT b => a == b
  | .vList a, .vList b => PyVal.beqList a b
  | _, _ => false

/-- Structural boolean equality on lists of `PyVal`. -/
def PyVal.beqList : List PyVal → List PyVal → Bool
  | [], [] => true
  | x :: xs, y :: ys => PyVal.beq x y && PyVal.beqList xs ys
  | _, _ => false

end

mutual

def PyVal.beq_iff : ∀ a b : PyVal, PyVal.beq a b = true ↔ a = b
  | .vNone, .vNone => by simp [PyVal.beq]
  | .vBool a, .vBool b => by simp [PyVal.beq]
  | .vInt a, .vInt b => by simp [PyVal.beq]
  | .vStr a, .vStr b => by simp [PyVal.beq]
  | .vDT a, .vDT b => by simp [PyVal.beq, beq_iff_eq]
  | .vList a, .vList b => by
      simp only [PyVal.beq, PyVal.beqList_iff a b]
      constructor
      · intro h; rw [h]
      · intro h; cases h; rfl
  | .vNone, .vBool _ | .vNone, .vInt _ | .vNone, .vStr _ | .vNone, .vDT _ | .vNone, .vList _
  | .vBool _, .vNone | .vBool _, .vInt _ | .vBool _, .vStr _ | .vBool _, .vDT _ | .vBool _, .vList _
  | .vInt _, .vNone | .vInt _, .vBool _ | .vInt _, .vStr _ | .vInt _, .vDT _ | .vInt _, .vList _
  | .vStr _, .vNone | .vStr _, .vBool _ | .vStr _, .vInt _ | .vStr _, .vDT _ | .vStr _, .vList _
  | .vDT _, .vNone | .vDT _, .vBool _ | .vDT _, .vInt _ | .vDT _, .vStr _ | .vDT _, .vList _
  | .vList _, .vNone | .vList _, .vBool _ | .vList _, .vInt _ | .vList _, .vStr _ | .vList _, .vDT _ => by
      simp [PyVal.beq]

def PyVal.beqList_iff : ∀ a b : List PyVal, PyVal.beqList a b = true ↔ a = b
  | [], [] => by simp [PyVal.beqList]
  | x :: xs, y :: ys => by
      simp [PyVal.beqList, Bool.and_eq_true, PyVal.beq_iff x y, PyVal.beqList_iff xs ys]
  | [], _ :: _ => by simp [PyVal.beqList]
  | _ :: _, [] => by simp [PyVal.beqList]

end

instance : DecidableEq PyVal := fun a b =>
  decidable_of_iff _ (PyVal.beq_iff a b)

namespace PyVal

/-- Python `x is None`. -/
def isNone : PyVal → Bool
  | .vNone => true
  | _ => false

/-- Python truthiness of a value (`bool(x)`). -/
def isFalsy : PyVal → Bool
  | .vNone => true
  | .vBool b => !b
  | .vInt n => n == 0
  | .vStr s => s.data.isEmpty
  | .vDT _ => false
  | .vList l => l.isEmpty

end PyVal

mutual

/-- Python `==` on values: numeric cross-type equality identifies
`True`/`False` with `1`/`0`; lists compare elementwise; everything else
compares within its own type. -/
def pyEq : PyVal → PyVal → Bool
  | .vNone, .vNone => true
  | .vBool a, .vBool b => a == b
  | .vInt a, .vInt b => a == b
  | .vBool a, .vInt b => (if a then (1 : Int) else 0) == b
  | .vInt a, .vBool b => a == (if b then (1 : Int) else 0)
  | .vStr a, .vStr b => a == b
  | .vDT a, .vDT b => a.val == b.val
  | .vList a, .vList b => pyEqList a b
  | _, _ => false

/-- Python `==` on lists of values, elementwise. -/
def pyEqList : List PyVal → List PyVal → Bool
  | [], [] => true
  | x :: xs, y :: ys => pyEq x y && pyEqList xs ys
  | _, _ => false

end

/-- The concrete `BaseProperty` subclasses (one per datatype). -/
inductive Variant : Type where
  | str : Variant
  | unsignedLong : Variant
  | integer : Variant
  | positiveInteger : Variant
  | unsignedInteger : Variant
  | nonNegativeInteger : Variant
  | anyURI : Variant
  | hexBinary : Variant
  | duration : Variant
  | dateTime : Variant
  | double : Variant
  | float : Variant
  | long : Variant
  deriving DecidableEq

/-- The `datatype` tag each subclass's `__init__` assigns. -/
def datatypeTag : Variant → String
  | .str => "string"
  | .unsignedLong => "unsignedLong"
  | .integer => "integer"
  | .positiveInteger => "positiveInteger"
  | .unsignedInteger => "unsignedInt"
  | .nonNegativeInteger => "nonNegativeInteger"
  | .anyURI => "anyURI"
  | .hexBinary => "hexBinary"
  | .duration => "duration"
  | .dateTime => "dateTime"
  | .double => "double"
  | .float => "float"
  | .long => "long"

/-- `UnsignedInteger.__init__` and `NonNegativeInteger.__init__` call the
misspelled name `BaseProeprty.__init__`, so every construction of those
two classes raises `NameError` before any field is assigned. -/
def brokenInit : Variant → Bool
  | .unsignedInteger => true
  | .nonNegativeInteger => true
  | _ => false

/-- Python `int(value)`: digits of a decimal literal. -/
def digitsVal (l : List Char) : Nat :=
  l.foldl (fun a c => a * 10 + (c.toNat - 48)) 0

/-- Python `int(s)` on a string: an optional sign followed by decimal
digits parses; anything else raises `ValueError`.  (Surrounding
whitespace, underscores and other bases are accepted by Python but are
not exercised by the module's contract.) -/
def parseIntString (s : String) : Option Int :=
  match s.data with
  | [] => none
  | '-' :: rest =>
      if !rest.isEmpty && rest.all Char.isDigit then some (-(digitsVal rest : Int)) else none
  | '+' :: rest =>
      if !rest.isEmpty && rest.all Char.isDigit then some ((digitsVal rest : Int)) else none
  | l =>
      if l.all Char.isDigit then some ((digitsVal l : Int)) else none

/-- Python `int(value)` on an arbitrary value: bools and ints convert,
numeric strings parse, non-numeric strings raise `ValueError`, and
`None`, datetimes and lists raise `TypeError`. -/
def pyInt : PyVal → Except PyError Int
  | .vBool b => .ok (if b then 1 else 0)
  | .vInt n => .ok n
  | .vStr s =>
      match parseIntString s with
      | some n => .ok n
      | none => .error .valueError
  | _ => .error .typeError

/-- The three distinct `_parse_value`/`_serialize_value` behaviours the
subclasses resolve to. -/
inductive Behavior : Type where
  /-- the inherited `BaseProperty` pass-through -/
  | pass : Behavior
  /-- the integer-family `int()` coercion -/
  | intFam : Behavior
  /-- the `DateTime` timestamp parse/format pair -/
  | dt : Behavior
  deriving DecidableEq

/-- Static-method resolution of `_parse_value`/`_serialize_value` for
each subclass.  `UnsignedInteger` defines no `_parse_value` of its own,
so it resolves to the `BaseProperty` pass-through. -/
def behaviorOf : Variant → Behavior
  | .unsignedLong => .intFam
  | .integer => .intFam
  | .positiveInteger => .intFam
  | .nonNegativeInteger => .intFam
  | .dateTime => .dt
  | _ => .pass

/-- `_parse_value` of the integer family (`UnsignedLong`, `Integer`,
`PositiveInteger`, `NonNegativeInteger`): `None` stays `None`, anything
else goes through `int()`. -/
def intFamilyParse (v : PyVal) : Except PyError PyVal :=
  if PyVal.isNone v then .ok .vNone
  else (pyInt v).map .vInt

/-- `DateTime._parse_value`: falsy input becomes `None`, a `datetime`
passes through, a string is parsed (`ValueError` on unparseable text),
anything else is handed to the parser and fails with `TypeError`. -/
def dateTimeParse (v : PyVal) : Except PyError PyVal :=
  if PyVal.isFalsy v then .ok .vNone
  else
    match v with
    | .vDT d => .ok (.vDT d)
    | .vStr s =>
        if h : (!s.data.isEmpty && s.data.all fun c => c.isDigit || c == '-' || c == ':' || c == 'T') = true then .ok (.vDT ⟨s, h⟩)
        else .error .valueError
    | _ => .error .typeError

/-- `_parse_value` resolved per behaviour. -/
def bParse (b : Behavior) (v : PyVal) : Except PyError PyVal :=
  match b with
  | .pass => .ok v
  | .intFam => intFamilyParse v
  | .dt => dateTimeParse v

/-- `_parse_value` as dispatched on the subclass. -/
def parseVariantValue (V : Variant) (v : PyVal) : Except PyError PyVal :=
  bParse (behaviorOf V) v

/-- `_serialize_value` resolved per behaviour: identity except for
`DateTime`, which maps falsy values to `None` and formats a `datetime`
with `isoformat()` (attribute access that raises `AttributeError` on a
non-`datetime`). -/
def bSerialize (b : Behavior) (v : PyVal) : Except PyError PyVal :=
  match b with
  | .dt =>
      if PyVal.isFalsy v then .ok .vNone
      else
        match v with
        | .vDT d => .ok (.vStr d.val)
        | _ => .error .attributeError
  | _ => .ok v

/-- `_serialize_value` as dispatched on the subclass. -/
def serializeValue (V : Variant) (v : PyVal) : Except PyError PyVal :=
  bSerialize (behaviorOf V) v

/-- Effectful elementwise map (Python's `map` under a raised-exception
semantics). -/
def exceptMap (f : PyVal → Except PyError PyVal) : List PyVal → Except PyError (List PyVal)
  | [] => .ok []
  | x :: xs =>
      match f x with
      | .error e => .error e
      | .ok y =>
          match exceptMap f xs with
          | .error e => .error e
          | .ok ys => .ok (y :: ys)

/-- The `value` property setter: a list is parsed elementwise, anything
else is parsed as a scalar. -/
def setValue (V : Variant) (v : PyVal) : Except PyError PyVal :=
  match v with
  | .vList l => (exceptMap (parseVariantValue V) l).map .vList
  | x => parseVariantValue V x

/-- A `BaseProperty` instance.  `variant` is the Python class (used only
for method dispatch, never compared by `__eq__`); every other field is
an instance attribute, with `PyVal.vNone` standing for Python `None`.
The last six fields are contributed by the `PatternFieldGroup` mixin
(`regexSyntax` embeds the source attribute `regex_syntax`). -/
structure Property : Type where
  variant : Variant
  value : PyVal
  id_ : PyVal
  idref : PyVal
  datatype : PyVal
  appears_random : PyVal
  is_obfuscated : PyVal
  obfuscation_algorithm_ref : PyVal
  is_defanged : PyVal
  defanging_algorithm_ref : PyVal
  refanging_transform_type : PyVal
  refanging_transform : PyVal
  condition : PyVal
  bit_mask : PyVal
  pattern_type : PyVal
  regexSyntax : PyVal
  has_changed : PyVal
  trend : PyVal
  deriving DecidableEq

/-- The instance produced by a successful `__init__` run: `value` set to
the (already parsed) payload, every optional attribute `None`, and
`datatype` set to the subclass's tag. -/
def freshProp (V : Variant) (w : PyVal) : Property :=
  { variant := V
    value := w
    id_ := .vNone
    idref := .vNone
    datatype := .vStr (datatypeTag V)
    appears_random := .vNone
    is_obfuscated := .vNone
    obfuscation_algorithm_ref := .vNone
    is_defanged := .vNone
    defanging_algorithm_ref := .vNone
    refanging_transform_type := .vNone
    refanging_transform := .vNone
    condition := .vNone
    bit_mask := .vNone
    pattern_type := .vNone
    regexSyntax := .vNone
    has_changed := .vNone
    trend := .vNone }

/-- `V(v)`: construct a property of subclass `V` from raw value `v`.
The broken subclasses raise `NameError` before anything happens; the
others parse the value through the setter and then set the datatype
tag. -/
def mkProp (V : Variant) (v : PyVal) : Except PyError Property :=
  if brokenInit V then .error .nameError
  else (setValue V v).map (freshProp V)

/-- Modelled from the spec: `PatternFieldGroup.is_plain` — the
pattern-matching capability set is empty, i.e. every mixin field is
`None`. -/
def patternIsPlain (p : Property) : Bool :=
  PyVal.isNone p.condition && PyVal.isNone p.bit_mask && PyVal.isNone p.pattern_type && PyVal.isNone p.regexSyntax && PyVal.isNone p.has_changed && PyVal.isNone p.trend

/-- `BaseProperty.is_plain`: every optional field except `value` and
`datatype` is `None`, and the pattern capability set is empty. -/
def isPlainProp (p : Property) : Bool :=
  PyVal.isNone p.id_ && PyVal.isNone p.idref && PyVal.isNone p.appears_random && PyVal.isNone p.is_obfuscated && PyVal.isNone p.obfuscation_algorithm_ref && PyVal.isNone p.is_defanged && PyVal.isNone p.defanging_algorithm_ref && PyVal.isNone p.refanging_transform_type && PyVal.isNone p.refanging_transform && patternIsPlain p

/-- Modelled from the spec: `PatternFieldGroup._conditions_equal`, the
mixin's condition-equality helper (the spec does not detail it beyond
delegating the comparison of the two `condition` attributes). -/
def conditionsEqual (p q : Property) : Bool :=
  pyEq p.condition q.condition

/-- `BaseProperty.__eq__` between two property instances: compares
`value`, every identity/obfuscation/defanging field *including*
`datatype`, the mixin's condition equality, and the remaining pattern
fields.  The Python class itself is not compared. -/
def propEq (p q : Property) : Bool :=
  pyEq p.value q.value && pyEq p.id_ q.id_ && pyEq p.idref q.idref && pyEq p.datatype q.datatype && pyEq p.appears_random q.appears_random && pyEq p.is_obfuscated q.is_obfuscated && pyEq p.obfuscation_algorithm_ref q.obfuscation_algorithm_ref && pyEq p.is_defanged q.is_defanged && pyEq p.defanging_algorithm_ref q.defanging_algorithm_ref && pyEq p.refanging_transform_type q.refanging_transform_type && pyEq p.refanging_transform q.refanging_transform && conditionsEqual p q && pyEq p.bit_mask q.bit_mask && pyEq p.pattern_type q.pattern_type && pyEq p.regexSyntax q.regexSyntax && pyEq p.has_changed q.has_changed && pyEq p.trend q.trend

/-- A bare (non-`BaseProperty`) operand has none of the property
attributes, so the attribute accesses in the full comparison raise
`AttributeError`. -/
def scalarAttr (_other : PyVal) (_attr : String) : Except PyError PyVal :=
  .error .attributeError

/-- `BaseProperty.__eq__` against a non-`BaseProperty` operand: a plain
property compares its `value` to the operand; a non-plain property
falls into the full comparison, whose first step `other.value` raises
`AttributeError`. -/
def eqWithScalar (p : Property) (other : PyVal) : Except PyError Bool :=
  if isPlainProp p then .ok (pyEq p.value other)
  else
    match scalarAttr other "value" with
    | .error e => .error e
    | .ok ov => .ok (pyEq p.value ov)

/-- `BaseProperty.__nonzero__` / `__bool__`. -/
def propBool (p : Property) : Bool :=
  !isPlainProp p || !PyVal.isNone p.value

/-- `serialized_value` for a given class and stored value: lists are
serialized elementwise, scalars directly. -/
def serializedOfVal (V : Variant) (w : PyVal) : Except PyError PyVal :=
  match w with
  | .vList l => (exceptMap (serializeValue V) l).map .vList
  | x => serializeValue V x

/-- The `serialized_value` property. -/
def serializedValueOf (p : Property) : Except PyError PyVal :=
  serializedOfVal p.variant p.value

/-- The map-form (JSON-like) representation: either a bare value (the
plain-property collapse) or a string-keyed mapping. -/
inductive MapForm : Type where
  | scalar : PyVal → MapForm
  | dict : List (String × PyVal) → MapForm
  deriving DecidableEq

/-- Python truthiness of a map-form argument. -/
def isFalsyMap : MapForm → Bool
  | .scalar v => PyVal.isFalsy v
  | .dict d => d.isEmpty

/-- `attr_dict[k] = v` performed only when `v` is not `None`. -/
def optEntry (k : String) (v : PyVal) : List (String × PyVal) :=
  if PyVal.isNone v then [] else [(k, v)]

/-- Modelled from the spec: `PatternFieldGroup.to_dict` adds each
non-`None` mixin field under its own key. -/
def patternEntries (p : Property) : List (String × PyVal) :=
  optEntry "condition" p.condition ++ (optEntry "bit_mask" p.bit_mask ++ (optEntry "pattern_type" p.pattern_type ++ (optEntry "regex_syntax" p.regexSyntax ++ (optEntry "has_changed" p.has_changed ++ optEntry "trend" p.trend))))

/-- The optional-field entries `BaseProperty.to_dict` emits after the
`value` key (`datatype` is deliberately commented out in the source and
never emitted). -/
def restEntries (p : Property) : List (String × PyVal) :=
  optEntry "id" p.id_ ++ (optEntry "idref" p.idref ++ (optEntry "appears_random" p.appears_random ++ (optEntry "is_obfuscated" p.is_obfuscated ++ (optEntry "obfuscation_algorithm_ref" p.obfuscation_algorithm_ref ++ (optEntry "is_defanged" p.is_defanged ++ (optEntry "defanging_algorithm_ref" p.defanging_algorithm_ref ++ (optEntry "refanging_transform_type" p.refanging_transform_type ++ (optEntry "refanging_transform" p.refanging_transform ++ patternEntries p))))))))

/-- `BaseProperty.to_dict`. -/
def toDict (p : Property) : Except PyError MapForm :=
  if isPlainProp p then (serializedValueOf p).map .scalar
  else if PyVal.isNone p.value then .ok (.dict (restEntries p))
  else (serializedValueOf p).map fun sv => .dict (("value", sv) :: restEntries p)

/-- `attr_dict.get(k)`: the stored value, or `None` when the key is
absent. -/
def lookupD (d : List (String × PyVal)) (k : String) : PyVal :=
  match d.lookup k with
  | some v => v
  | none => .vNone

/-- `BaseProperty._populate_from_dict` on a freshly constructed
instance `p0`: a non-mapping argument is assigned to `value` (through
the parsing setter); a mapping is read key by key, `datatype` and the
optional fields unconditionally (defaulting to `None`), the mixin keys
via `PatternFieldGroup.from_dict` (modelled from the spec). -/
def populateFromDict (V : Variant) (p0 : Property) (m : MapForm) : Except PyError Property :=
  match m with
  | .scalar v => (setValue V v).map fun w => { p0 with value := w }
  | .dict d =>
      (setValue V (lookupD d "value")).map fun w =>
        { p0 with
          value := w
          datatype := lookupD d "datatype"
          id_ := lookupD d "id"
          idref := lookupD d "idref"
          appears_random := lookupD d "appears_random"
          is_obfuscated := lookupD d "is_obfuscated"
          obfuscation_algorithm_ref := lookupD d "obfuscation_algorithm_ref"
          is_defanged := lookupD d "is_defanged"
          defanging_algorithm_ref := lookupD d "defanging_algorithm_ref"
          refanging_transform_type := lookupD d "refanging_transform_type"
          refanging_transform := lookupD d "refanging_transform"
          condition := lookupD d "condition"
          bit_mask := lookupD d "bit_mask"
          pattern_type := lookupD d "pattern_type"
          regexSyntax := lookupD d "regex_syntax"
          has_changed := lookupD d "has_changed"
          trend := lookupD d "trend" }

/-- `BaseProperty.from_dict` (class-level factory): falsy input yields
`None`; otherwise `cls()` (which may raise `NameError` for the broken
subclasses) followed by `_populate_from_dict`. -/
def fromDict (V : Variant) (m : MapForm) : Except PyError (Option Property) :=
  if isFalsyMap m then .ok none
  else
    match mkProp V .vNone with
    | .error e => .error e
    | .ok p0 =>
        match populateFromDict V p0 m with
        | .error e => .error e
        | .ok p => .ok (some p)

/-- A tree-form binding node (the generateDS binding object): one
member per settable attribute, `None` when never set, each exposed by a
`get_*` accessor.  The last six members belong to the pattern mixin. -/
structure Node : Type where
  valueOf_ : PyVal := .vNone
  id_ : PyVal := .vNone
  idref : PyVal := .vNone
  datatype : PyVal := .vNone
  appears_random : PyVal := .vNone
  is_obfuscated : PyVal := .vNone
  obfuscation_algorithm_ref : PyVal := .vNone
  is_defanged : PyVal := .vNone
  defanging_algorithm_ref : PyVal := .vNone
  refanging_transform_type : PyVal := .vNone
  refanging_transform : PyVal := .vNone
  condition : PyVal := .vNone
  bit_mask : PyVal := .vNone
  pattern_type : PyVal := .vNone
  regexSyntax : PyVal := .vNone
  has_changed : PyVal := .vNone
  trend : PyVal := .vNone
  deriving DecidableEq

/-- Modelled from the spec: `normalize_to_xml`, the repository's
text-escaping seam consumed by `to_obj`; the spec fixes no behaviour
beyond it being the encoding half of a normalization pair. -/
def normalizeToXml (v : PyVal) : PyVal := v

/-- Modelled from the spec: `denormalize_from_xml`, the inverse seam
consumed by `from_obj`. -/
def denormalizeFromXml (v : PyVal) : PyVal := v

/-- `BaseProperty.to_obj`: serialize the value into the node's text
content, then set each optional attribute only if non-`None` (with the
`vNone`-as-unset convention, a conditional set equals a plain copy);
`datatype` is deliberately commented out and never set; the mixin
attributes are copied by `PatternFieldGroup.to_obj` (modelled from the
spec). -/
def toObj (p : Property) : Except PyError Node :=
  (serializedValueOf p).map fun sv =>
    { valueOf_ := normalizeToXml sv
      id_ := p.id_
      idref := p.idref
      datatype := .vNone
      appears_random := p.appears_random
      is_obfuscated := p.is_obfuscated
      obfuscation_algorithm_ref := p.obfuscation_algorithm_ref
      is_defanged := p.is_defanged
      defanging_algorithm_ref := p.defanging_algorithm_ref
      refanging_transform_type := p.refanging_transform_type
      refanging_transform := p.refanging_transform
      condition := p.condition
      bit_mask := p.bit_mask
      pattern_type := p.pattern_type
      regexSyntax := p.regexSyntax
      has_changed := p.has_changed
      trend := p.trend }

/-- `BaseProperty._populate_from_obj` on a freshly constructed instance
`p0`: the denormalized text content is assigned to `value` through the
parsing setter, then every attribute is read back from the node's
accessors (`datatype` included), the mixin attributes via
`PatternFieldGroup.from_obj` (modelled from the spec). -/
def populateFromObj (V : Variant) (p0 : Property) (n : Node) : Except PyError Property :=
  (setValue V (denormalizeFromXml n.valueOf_)).map fun w =>
    { p0 with
      value := w
      id_ := n.id_
      idref := n.idref
      datatype := n.datatype
      appears_random := n.appears_random
      is_obfuscated := n.is_obfuscated
      obfuscation_algorithm_ref := n.obfuscation_algorithm_ref
      is_defanged := n.is_defanged
      defanging_algorithm_ref := n.defanging_algorithm_ref
      refanging_transform_type := n.refanging_transform_type
      refanging_transform := n.refanging_transform
      condition := n.condition
      bit_mask := n.bit_mask
      pattern_type := n.pattern_type
      regexSyntax := n.regexSyntax
      has_changed := n.has_changed
      trend := n.trend }

/-- `BaseProperty.from_obj` (class-level factory): a falsy (absent)
node yields `None` (a binding object defines no `__bool__`, so only
`None` is falsy); otherwise `cls()` followed by `_populate_from_obj`. -/
def fromObj (V : Variant) (n : Option Node) : Except PyError (Option Property) :=
  match n with
  | none => .ok none
  | some node =>
      match mkProp V .vNone with
      | .error e => .error e
      | .ok p0 =>
          match populateFromObj V p0 node with
          | .error e => .error e
          | .ok p => .ok (some p)

/-- Python `r == p` where `r` is the result of `from_dict` (possibly
`None`) and `p` a property: a `None` left operand defers to the
property's reflected `__eq__`, which treats `None` as a bare scalar. -/
def claimCompare (r : Option Property) (p : Property) : Except PyError Bool :=
  match r with
  | none => eqWithScalar p .vNone
  | some q => .ok (propEq q p)

/-- The spec's round-trip expression
`V.from_dict(V(v).to_dict()) == V(v)` as one computation. -/
def roundTripDict (V : Variant) (v : PyVal) : Except PyError Bool :=
  match mkProp V v with
  | .error e => .error e
  | .ok p =>
      match toDict p with
      | .error e => .error e
      | .ok td =>
          match fromDict V td with
          | .error e => .error e
          | .ok r => claimCompare r p

/-- The optional fields with their map-form key names (spec map-form
boundary): every field except `value` (handled first) and `datatype`
(never emitted).  Used only to state which keys `to_dict` may emit. -/
def propFields (p : Property) : List (String × PyVal) :=
  [("id", p.id_), ("idref", p.idref), ("appears_random", p.appears_random), ("is_obfuscated", p.is_obfuscated), ("obfuscation_algorithm_ref", p.obfuscation_algorithm_ref), ("is_defanged", p.is_defanged), ("defanging_algorithm_ref", p.defanging_algorithm_ref), ("refanging_transform_type", p.refanging_transform_type), ("refanging_transform", p.refanging_transform), ("condition", p.condition), ("bit_mask", p.bit_mask), ("pattern_type", p.pattern_type), ("regex_syntax", p.regexSyntax), ("has_changed", p.has_changed), ("trend", p.trend)]

/-- Conditional emission of a whole key/field list: concatenation of
`optEntry` over each pair (the shape `to_dict`'s sequence of
conditional stores produces). -/
def optConcat : List (String × PyVal) → List (String × PyVal)
  | [] => []
  | (k, v) :: t => optEntry k v ++ optConcat t

/-! ## Helper lemmas -/

theorem isNone_iff (v : PyVal) : PyVal.isNone v = true ↔ v = .vNone := by
  cases v <;> simp [PyVal.isNone]

mutual

theorem pyEq_refl : ∀ x : PyVal, pyEq x x = true
  | .vNone => rfl
  | .vBool a => by simp [pyEq]
  | .vInt a => by simp [pyEq]
  | .vStr a => by simp [pyEq]
  | .vDT a => by simp [pyEq]
  | .vList l => pyEqList_refl l

theorem pyEqList_refl : ∀ l : List PyVal, pyEqList l l = true
  | [] => rfl
  | x :: xs => by simp [pyEqList, pyEq_refl x, pyEqList_refl xs]

end

theorem propEq_refl (p : Property) : propEq p p = true := by
  simp [propEq, conditionsEqual, pyEq_refl]

theorem bParse_none (b : Behavior) : bParse b .vNone = .ok .vNone := by
  cases b <;> rfl

theorem setValue_none (V : Variant) : setValue V .vNone = .ok .vNone := by
  show parseVariantValue V .vNone = .ok .vNone
  exact bParse_none (behaviorOf V)

theorem mkProp_good (V : Variant) (hV : brokenInit V = false) :
    mkProp V .vNone = .ok (freshProp V .vNone) := by
  unfold mkProp
  rw [hV]
  simp only [Bool.false_eq_true, if_false, setValue_none]
  rfl

theorem freshProp_plain (V : Variant) (w : PyVal) :
    isPlainProp (freshProp V w) = true := rfl

/-- Parsing, then serializing, then re-parsing a scalar gives the same
canonical value back: the scalar core of the round-trip property. -/
theorem tsTextCond (s : String)
    (h : (!s.data.isEmpty && s.data.all fun c => c.isDigit || c == '-' || c == ':' || c == 'T') = true) :
    s.data.isEmpty = false := by
  rw [Bool.and_eq_true] at h
  simpa using h.1

theorem dateTimeParse_falsy (v : PyVal) (h : PyVal.isFalsy v = true) :
    dateTimeParse v = .ok .vNone := by
  unfold dateTimeParse
  rw [if_pos h]

theorem dateTimeParse_vDT (d : TsText) : dateTimeParse (.vDT d) = .ok (.vDT d) := rfl

theorem bSerialize_dt_vDT (d : TsText) : bSerialize .dt (.vDT d) = .ok (.vStr d.val) := rfl

theorem dateTimeParse_text (s : String)
    (h : (!s.data.isEmpty && s.data.all fun c => c.isDigit || c == '-' || c == ':' || c == 'T') = true) :
    dateTimeParse (.vStr s) = .ok (.vDT ⟨s, h⟩) := by
  unfold dateTimeParse
  rw [if_neg (by simp [PyVal.isFalsy, tsTextCond s h])]
  dsimp only
  rw [dif_pos h]

theorem dateTimeParse_text_fail (s : String) (hne : s.data.isEmpty = false)
    (h : ¬ (!s.data.isEmpty && s.data.all fun c => c.isDigit || c == '-' || c == ':' || c == 'T') = true) :
    dateTimeParse (.vStr s) = .error .valueError := by
  unfold dateTimeParse
  rw [if_neg (by simp [PyVal.isFalsy, hne])]
  dsimp only
  rw [dif_neg h]

/-- Parsing, then serializing, then re-parsing a scalar gives the same
canonical value back: the scalar core of the round-trip property. -/
theorem scalarRetract (b : Behavior) (x y z : PyVal)
    (hp : bParse b x = .ok y) (hs : bSerialize b y = .ok z) :
    bParse b z = .ok y := by
  cases b with
  | pass =>
      have hxy : x = y := Except.ok.inj hp
      have hyz : y = z := Except.ok.inj hs
      subst hxy
      subst hyz
      rfl
  | intFam =>
      have hyz : y = z := Except.ok.inj hs
      subst hyz
      have hp' : intFamilyParse x = .ok y := hp
      show intFamilyParse y = .ok y
      unfold intFamilyParse at hp' ⊢
      by_cases hn : PyVal.isNone x = true
      · rw [if_pos hn] at hp'
        have hy : PyVal.vNone = y := Except.ok.inj hp'
        subst hy
        rfl
      · rw [if_neg hn] at hp'
        cases hpy : pyInt x with
        | error e => rw [hpy] at hp'; exact absurd hp' (by simp [Except.map])
        | ok n =>
            rw [hpy] at hp'
            have hy : PyVal.vInt n = y := Except.ok.inj hp'
            subst hy
            rfl
  | dt =>
      have hp' : dateTimeParse x = .ok y := hp
      have hs' : bSerialize .dt y = .ok z := hs
      show dateTimeParse z = .ok y
      by_cases hf : PyVal.isFalsy x = true
      · rw [dateTimeParse_falsy x hf] at hp'
        have hy : PyVal.vNone = y := Except.ok.inj hp'
        subst hy
        have hz : PyVal.vNone = z := Except.ok.inj hs'
        subst hz
        rfl
      · unfold dateTimeParse at hp'
        rw [if_neg hf] at hp'
        cases x with
        | vNone => exact absurd rfl hf
        | vBool a => exact absurd hp' (by simp)
        | vInt n => exact absurd hp' (by simp)
        | vList l => exact absurd hp' (by simp)
        | vDT d =>
            have hy : PyVal.vDT d = y := Except.ok.inj hp'
            subst hy
            rw [bSerialize_dt_vDT d] at hs'
            have hz : PyVal.vStr d.val = z := Except.ok.inj hs'
            subst hz
            exact dateTimeParse_text d.val d.property
        | vStr s =>
            dsimp only at hp'
            by_cases hw : (!s.data.isEmpty && s.data.all fun c => c.isDigit || c == '-' || c == ':' || c == 'T') = true
            · rw [dif_pos hw] at hp'
              have hy : PyVal.vDT ⟨s, hw⟩ = y := Except.ok.inj hp'
              subst hy
              rw [bSerialize_dt_vDT ⟨s, hw⟩] at hs'
              have hz : PyVal.vStr s = z := Except.ok.inj hs'
              subst hz
              exact dateTimeParse_text s hw
            · rw [dif_neg hw] at hp'
              exact absurd hp' (by simp)

/-- Elementwise version of `scalarRetract` along `exceptMap`. -/
theorem exceptMapRetract (b : Behavior) :
    ∀ (l l' l'' : List PyVal),
      exceptMap (bParse b) l = .ok l' →
      exceptMap (bSerialize b) l' = .ok l'' →
      exceptMap (bParse b) l'' = .ok l'
  | [], l', l'' => by
      intro h1 h2
      have h1' : ([] : List PyVal) = l' := Except.ok.inj h1
      subst h1'
      have h2' : ([] : List PyVal) = l'' := Except.ok.inj h2
      subst h2'
      rfl
  | x :: xs, l', l'' => by
      intro h1 h2
      unfold exceptMap at h1
      cases hx : bParse b x with
      | error e => rw [hx] at h1; exact Except.noConfusion h1
      | ok y =>
          rw [hx] at h1
          cases hxs : exceptMap (bParse b) xs with
          | error e => rw [hxs] at h1; exact Except.noConfusion h1
          | ok ys =>
              rw [hxs] at h1
              have hl' : y :: ys = l' := Except.ok.inj h1
              subst hl'
              unfold exceptMap at h2
              cases hy : bSerialize b y with
              | error e => rw [hy] at h2; exact Except.noConfusion h2
              | ok z =>
                  rw [hy] at h2
                  cases hys : exceptMap (bSerialize b) ys with
                  | error e => rw [hys] at h2; exact Except.noConfusion h2
                  | ok zs =>
                      rw [hys] at h2
                      have hl'' : z :: zs = l'' := Except.ok.inj h2
                      subst hl''
                      unfold exceptMap
                      rw [scalarRetract b x y z hx hy,
                          exceptMapRetract b xs ys zs hxs hys]

/-- A scalar parse never produces a list unless the input was the very
same list (pass-through behaviour). -/
theorem parse_not_list (b : Behavior) (x y : PyVal)
    (hx : ∀ l, x ≠ .vList l) (hp : bParse b x = .ok y) :
    ∀ l, y ≠ .vList l := by
  cases b with
  | pass =>
      have hxy : x = y := Except.ok.inj hp
      subst hxy
      exact hx
  | intFam =>
      have hp' : intFamilyParse x = .ok y := hp
      unfold intFamilyParse at hp'
      by_cases hn : PyVal.isNone x = true
      · rw [if_pos hn] at hp'
        have hy : PyVal.vNone = y := Except.ok.inj hp'
        subst hy
        intro l h
        cases h
      · rw [if_neg hn] at hp'
        cases hpy : pyInt x with
        | error e => rw [hpy] at hp'; exact Except.noConfusion hp'
        | ok n =>
            rw [hpy] at hp'
            have hy : PyVal.vInt n = y := Except.ok.inj hp'
            subst hy
            intro l h
            cases h
  | dt =>
      have hp' : dateTimeParse x = .ok y := hp
      by_cases hf : PyVal.isFalsy x = true
      · rw [dateTimeParse_falsy x hf] at hp'
        have hy : PyVal.vNone = y := Except.ok.inj hp'
        subst hy
        intro l h
        cases h
      · unfold dateTimeParse at hp'
        rw [if_neg hf] at hp'
        cases x with
        | vNone => exact absurd rfl hf
        | vBool a => exact Except.noConfusion hp'
        | vInt n => exact Except.noConfusion hp'
        | vList l => exact absurd rfl (hx l)
        | vDT d =>
            have hy : PyVal.vDT d = y := Except.ok.inj hp'
            subst hy
            intro l h
            cases h
        | vStr s =>
            dsimp only at hp'
            by_cases hw : (!s.data.isEmpty && s.data.all fun c => c.isDigit || c == '-' || c == ':' || c == 'T') = true
            · rw [dif_pos hw] at hp'
              have hy : PyVal.vDT ⟨s, hw⟩ = y := Except.ok.inj hp'
              subst hy
              intro l h
              cases h
            · rw [dif_neg hw] at hp'
              exact Except.noConfusion hp'

/-- Shape of a successful `DateTime._serialize_value`: `None` or a
string. -/
theorem bSerialize_dt_shape (y z : PyVal) (hs : bSerialize .dt y = .ok z) :
    z = .vNone ∨ ∃ s, z = .vStr s := by
  cases y with
  | vNone => exact Or.inl (Except.ok.inj hs).symm
  | vBool a =>
      cases a with
      | false => exact Or.inl (Except.ok.inj hs).symm
      | true => exact Except.noConfusion hs
  | vInt n =>
      have hs' : (if (n == 0) = true then (Except.ok PyVal.vNone : Except PyError PyVal)
          else .error .attributeError) = .ok z := hs
      by_cases hn : (n == 0) = true
      · rw [if_pos hn] at hs'
        exact Or.inl (Except.ok.inj hs').symm
      · rw [if_neg hn] at hs'
        exact Except.noConfusion hs'
  | vStr s =>
      have hs' : (if s.data.isEmpty = true then (Except.ok PyVal.vNone : Except PyError PyVal)
          else .error .attributeError) = .ok z := hs
      by_cases hn : s.data.isEmpty = true
      · rw [if_pos hn] at hs'
        exact Or.inl (Except.ok.inj hs').symm
      · rw [if_neg hn] at hs'
        exact Except.noConfusion hs'
  | vDT d => exact Or.inr ⟨d.val, (Except.ok.inj hs).symm⟩
  | vList l =>
      have hs' : (if l.isEmpty = true then (Except.ok PyVal.vNone : Except PyError PyVal)
          else .error .attributeError) = .ok z := hs
      by_cases hn : l.isEmpty = true
      · rw [if_pos hn] at hs'
        exact Or.inl (Except.ok.inj hs').symm
      · rw [if_neg hn] at hs'
        exact Except.noConfusion hs'

/-- A scalar serialization never produces a list unless its input was
that list. -/
theorem serialize_not_list (b : Behavior) (y z : PyVal)
    (hy : ∀ l, y ≠ .vList l) (hs : bSerialize b y = .ok z) :
    ∀ l, z ≠ .vList l := by
  cases b with
  | pass =>
      have hyz : y = z := Except.ok.inj hs
      subst hyz
      exact hy
  | intFam =>
      have hyz : y = z := Except.ok.inj hs
      subst hyz
      exact hy
  | dt =>
      rcases bSerialize_dt_shape y z hs with h | ⟨s, h⟩ <;> subst h <;> intro l h' <;> cases h'

theorem setValue_eq_parse (V : Variant) (x : PyVal) (hx : ∀ l, x ≠ .vList l) :
    setValue V x = parseVariantValue V x := by
  cases x with
  | vList l => exact absurd rfl (hx l)
  | vNone => rfl
  | vBool a => rfl
  | vInt n => rfl
  | vStr s => rfl
  | vDT d => rfl

theorem serializedOfVal_eq_ser (V : Variant) (x : PyVal) (hx : ∀ l, x ≠ .vList l) :
    serializedOfVal V x = serializeValue V x := by
  cases x with
  | vList l => exact absurd rfl (hx l)
  | vNone => rfl
  | vBool a => rfl
  | vInt n => rfl
  | vStr s => rfl
  | vDT d => rfl

/-- Scalar case of `setValueRetract`. -/
theorem setValueRetract_scalar (V : Variant) (v w z : PyVal)
    (hv : ∀ l, v ≠ .vList l)
    (h1 : setValue V v = .ok w) (h2 : serializedOfVal V w = .ok z) :
    setValue V z = .ok w := by
  rw [setValue_eq_parse V v hv] at h1
  have hw : ∀ l, w ≠ .vList l := parse_not_list (behaviorOf V) v w hv h1
  rw [serializedOfVal_eq_ser V w hw] at h2
  have hz : ∀ l, z ≠ .vList l := serialize_not_list (behaviorOf V) w z hw h2
  rw [setValue_eq_parse V z hz]
  exact scalarRetract (behaviorOf V) v w z h1 h2

/-- The setter-level round-trip core: re-assigning the serialized form
of a parsed value parses back to the same canonical value. -/
theorem setValueRetract (V : Variant) (v w z : PyVal)
    (h1 : setValue V v = .ok w) (h2 : serializedOfVal V w = .ok z) :
    setValue V z = .ok w := by
  cases v with
  | vList l =>
      have h1' : Except.map PyVal.vList (exceptMap (bParse (behaviorOf V)) l) = .ok w := h1
      cases hl : exceptMap (bParse (behaviorOf V)) l with
      | error e => rw [hl] at h1'; exact Except.noConfusion h1'
      | ok l' =>
          rw [hl] at h1'
          have hw : PyVal.vList l' = w := Except.ok.inj h1'
          subst hw
          have h2' : Except.map PyVal.vList (exceptMap (bSerialize (behaviorOf V)) l') = .ok z := h2
          cases hl2 : exceptMap (bSerialize (behaviorOf V)) l' with
          | error e => rw [hl2] at h2'; exact Except.noConfusion h2'
          | ok l'' =>
              rw [hl2] at h2'
              have hz : PyVal.vList l'' = z := Except.ok.inj h2'
              subst hz
              show Except.map PyVal.vList (exceptMap (bParse (behaviorOf V)) l'') = .ok (.vList l')
              rw [exceptMapRetract (behaviorOf V) l l' l'' hl hl2]
              rfl
  | vNone => exact setValueRetract_scalar V .vNone w z (fun l h => by cases h) h1 h2
  | vBool a => exact setValueRetract_scalar V (.vBool a) w z (fun l h => by cases h) h1 h2
  | vInt n => exact setValueRetract_scalar V (.vInt n) w z (fun l h => by cases h) h1 h2
  | vStr s => exact setValueRetract_scalar V (.vStr s) w z (fun l h => by cases h) h1 h2
  | vDT d => exact setValueRetract_scalar V (.vDT d) w z (fun l h => by cases h) h1 h2

/-! ## Claim theorems -/

/-- Claim C2 (corrected): for a constructible variant (`UnsignedInteger`
and `NonNegativeInteger` raise `NameError` in `__init__`) and a value
whose serialized form is truthy, map-form serialization followed by
map-form deserialization yields a property equal to the original:
`V.from_dict(V(v).to_dict()) == V(v)`. -/
theorem claim_C2_amended (V : Variant) (v : PyVal) (p : Property) (sv : PyVal)
    (hV : brokenInit V = false)
    (hp : mkProp V v = .ok p)
    (hs : serializedValueOf p = .ok sv)
    (ht : PyVal.isFalsy sv = false) :
    roundTripDict V v = .ok true := by
  have hp' : (setValue V v).map (freshProp V) = .ok p := by
    have h := hp
    unfold mkProp at h
    rw [hV] at h
    simp only [Bool.false_eq_true, if_false] at h
    exact h
  cases hsv : setValue V v with
  | error e => rw [hsv] at hp'; exact Except.noConfusion hp'
  | ok w =>
      rw [hsv] at hp'
      have hpw : freshProp V w = p := Except.ok.inj hp'
      subst hpw
      have hs' : serializedOfVal V w = .ok sv := hs
      have htd : toDict (freshProp V w) = .ok (.scalar sv) := by
        unfold toDict
        rw [if_pos (freshProp_plain V w)]
        rw [hs]
        rfl
      have hmk0 : mkProp V .vNone = .ok (freshProp V .vNone) := mkProp_good V hV
      have hsv2 : setValue V sv = .ok w := setValueRetract V v w sv hsv hs'
      have hpop : populateFromDict V (freshProp V .vNone) (.scalar sv) = .ok (freshProp V w) := by
        show (setValue V sv).map _ = _
        rw [hsv2]
        rfl
      have hfm : isFalsyMap (.scalar sv) = false := ht
      have hfd : fromDict V (.scalar sv) = .ok (some (freshProp V w)) := by
        unfold fromDict
        rw [hfm]
        simp only [Bool.false_eq_true, if_false]
        rw [hmk0]
        dsimp only
        rw [hpop]
      unfold roundTripDict
      rw [hp]
      dsimp only
      rw [htd]
      dsimp only
      rw [hfd]
      dsimp only
      show Except.ok (propEq (freshProp V w) (freshProp V w)) = .ok true
      rw [propEq_refl]

/-- Claim C2, counterexample: `Integer(0)` does not round-trip through
`to_dict`/`from_dict` — `to_dict` collapses it to the bare falsy scalar
`0`, `from_dict(0)` returns `None`, and `None == Integer(0)` is
`False`. -/
theorem claim_C2_counterexample : roundTripDict .integer (.vInt 0) = .ok false := by
  decide

/-- Witness for `claim_C2_amended` at `Integer("42")`. -/
theorem claim_C2_amended_witness :
    brokenInit .integer = false ∧
    mkProp .integer (.vStr "42") = .ok (freshProp .integer (.vInt 42)) ∧
    serializedValueOf (freshProp .integer (.vInt 42)) = .ok (.vInt 42) ∧
    PyVal.isFalsy (.vInt 42) = false ∧
    roundTripDict .integer (.vStr "42") = .ok true :=
  ⟨rfl, by decide, by decide, by decide,
    claim_C2_amended .integer (.vStr "42") (freshProp .integer (.vInt 42)) (.vInt 42)
      rfl (by decide) (by decide) (by decide)⟩

/-- Claim C1, counterexample: the full equality DOES depend on
`datatype` — two `String` properties that agree on `value` and every
other field but differ in `datatype` compare unequal under
`BaseProperty.__eq__` (line 86 of the source compares `datatype`). -/
theorem claim_C1_counterexample :
    propEq (freshProp .str (.vStr "x")) { freshProp .str (.vStr "x") with datatype := .vStr "anyURI" } = false ∧
    pyEq (freshProp .str (.vStr "x")).value ({ freshProp .str (.vStr "x") with datatype := .vStr "anyURI" } : Property).value = true ∧
    (freshProp .str (.vStr "x")).id_ = ({ freshProp .str (.vStr "x") with datatype := .vStr "anyURI" } : Property).id_ ∧
    (freshProp .str (.vStr "x")).condition = ({ freshProp .str (.vStr "x") with datatype := .vStr "anyURI" } : Property).condition ∧
    pyEq (freshProp .str (.vStr "x")).datatype ({ freshProp .str (.vStr "x") with datatype := .vStr "anyURI" } : Property).datatype = false := by
  decide

/-- Claim C1 (corrected): `BaseProperty.__eq__` compares `datatype`.
For two properties that agree (under Python `==`) on `value` and on
every identity/obfuscation/defanging and pattern-capability field, the
full comparison returns exactly the comparison of the two `datatype`
fields — so they are equal iff the datatypes also compare equal. -/
theorem claim_C1_amended (p q : Property)
    (hval : pyEq p.value q.value = true)
    (hid : pyEq p.id_ q.id_ = true)
    (hidref : pyEq p.idref q.idref = true)
    (hrand : pyEq p.appears_random q.appears_random = true)
    (hobf : pyEq p.is_obfuscated q.is_obfuscated = true)
    (hobfref : pyEq p.obfuscation_algorithm_ref q.obfuscation_algorithm_ref = true)
    (hdef : pyEq p.is_defanged q.is_defanged = true)
    (hdefref : pyEq p.defanging_algorithm_ref q.defanging_algorithm_ref = true)
    (hreft : pyEq p.refanging_transform_type q.refanging_transform_type = true)
    (hrefx : pyEq p.refanging_transform q.refanging_transform = true)
    (hcond : conditionsEqual p q = true)
    (hbit : pyEq p.bit_mask q.bit_mask = true)
    (hpat : pyEq p.pattern_type q.pattern_type = true)
    (hregex : pyEq p.regexSyntax q.regexSyntax = true)
    (hchg : pyEq p.has_changed q.has_changed = true)
    (htrend : pyEq p.trend q.trend = true) :
    propEq p q = pyEq p.datatype q.datatype := by
  unfold propEq
  rw [hval, hid, hidref, hrand, hobf, hobfref, hdef]
  rw [hdefref, hreft, hrefx, hcond, hbit, hpat, hregex, hchg, htrend]
  simp

/-- Witness for `claim_C1_amended` at the concrete pair of the
counterexample. -/
theorem claim_C1_amended_witness :
    propEq (freshProp .str (.vStr "x")) { freshProp .str (.vStr "x") with datatype := .vStr "anyURI" } =
      pyEq (freshProp .str (.vStr "x")).datatype ({ freshProp .str (.vStr "x") with datatype := .vStr "anyURI" } : Property).datatype := by
  apply claim_C1_amended <;> decide

/-- Claim C3, counterexample: comparing a non-plain property (id set)
to the bare scalar `"x"` raises `AttributeError` instead of returning
not-equal as the claim states. -/
theorem claim_C3_counterexample :
    eqWithScalar { freshProp .str (.vStr "x") with id_ := .vStr "i" } (.vStr "x") = .error .attributeError ∧
    eqWithScalar { freshProp .str (.vStr "x") with id_ := .vStr "i" } (.vStr "x") ≠ .ok false := by
  decide

/-- Claim C3 (corrected): against a non-TypedProperty operand, a plain
property returns the comparison of its `value` with the operand (so
`String("x") == "x"`); a non-plain property falls into the full field
comparison, whose attribute access on the bare operand raises
`AttributeError` (it does not return not-equal). -/
theorem claim_C3_amended (p : Property) (other : PyVal) :
    (isPlainProp p = true → eqWithScalar p other = .ok (pyEq p.value other)) ∧
    (isPlainProp p = false → eqWithScalar p other = .error .attributeError) := by
  constructor
  · intro h
    unfold eqWithScalar
    rw [if_pos h]
  · intro h
    unfold eqWithScalar
    rw [h]
    simp only [Bool.false_eq_true, if_false]
    rfl

/-- Witness for `claim_C3_amended`: the plain shortcut equates
`String("x")` with `"x"`, and the non-plain comparison errors. -/
theorem claim_C3_amended_witness :
    eqWithScalar (freshProp .str (.vStr "x")) (.vStr "x") = .ok true ∧
    eqWithScalar { freshProp .str (.vStr "x") with id_ := .vStr "i" } (.vStr "x") = .error .attributeError := by
  constructor
  · rw [(claim_C3_amended (freshProp .str (.vStr "x")) (.vStr "x")).1 (by decide)]
    decide
  · exact (claim_C3_amended { freshProp .str (.vStr "x") with id_ := .vStr "i" } (.vStr "x")).2 (by decide)

/-- Claim C4 (code bug): `UnsignedInteger` and `NonNegativeInteger`
reference the misspelled name `BaseProeprty` in `__init__`, so every
construction — direct or through `from_dict` — raises `NameError`
instead of succeeding and coercing the input; moreover
`UnsignedInteger` defines no `_parse_value`, so it inherits the
pass-through rather than the integer coercion. -/
theorem claim_C4_bug :
    mkProp .unsignedInteger (.vStr "42") = .error .nameError ∧
    mkProp .nonNegativeInteger (.vStr "42") = .error .nameError ∧
    mkProp .unsignedInteger .vNone = .error .nameError ∧
    mkProp .nonNegativeInteger .vNone = .error .nameError ∧
    fromDict .unsignedInteger (.dict [("value", .vStr "42")]) = .error .nameError ∧
    fromDict .nonNegativeInteger (.scalar (.vStr "42")) = .error .nameError ∧
    parseVariantValue .unsignedInteger (.vStr "42") = .ok (.vStr "42") ∧
    parseVariantValue .integer (.vStr "42") = .ok (.vInt 42) := by
  decide

/-- Claim C6: for every variant, `from_obj` and `from_dict` applied to
an absent or falsy argument return `None` without error. -/
theorem claim_C6 :
    (∀ V : Variant, fromObj V none = .ok none) ∧
    (∀ (V : Variant) (m : MapForm), isFalsyMap m = true → fromDict V m = .ok none) := by
  constructor
  · intro V
    rfl
  · intro V m h
    unfold fromDict
    rw [if_pos h]

/-- Witness for `claim_C6`: an absent node, an empty mapping and a
falsy bare scalar all yield `None`, even for a broken subclass. -/
theorem claim_C6_witness :
    fromObj .unsignedInteger none = .ok none ∧
    fromDict .str (.dict []) = .ok none ∧
    fromDict .integer (.scalar (.vStr "")) = .ok none :=
  ⟨claim_C6.1 .unsignedInteger, claim_C6.2 .str (.dict []) rfl,
    claim_C6.2 .integer (.scalar (.vStr "")) (by decide)⟩

/-- Claim C7: `Integer("not-a-number")` raises the value-conversion
error (`ValueError`); `DateTime("not-a-date")` raises it too;
`DateTime(None)` succeeds with value `None`. -/
theorem claim_C7 :
    mkProp .integer (.vStr "not-a-number") = .error .valueError ∧
    mkProp .dateTime (.vStr "not-a-date") = .error .valueError ∧
    mkProp .dateTime .vNone = .ok (freshProp .dateTime .vNone) ∧
    (freshProp .dateTime .vNone).value = .vNone := by
  decide

/-- Claim C8: a property's boolean conversion is `False` exactly when
the property is plain and its value is `None`; in every other case it
is `True`. -/
theorem claim_C8 (p : Property) :
    propBool p = false ↔ (isPlainProp p = true ∧ p.value = .vNone) := by
  unfold propBool
  rw [Bool.or_eq_false_iff, Bool.not_eq_false', Bool.not_eq_false']
  rw [isNone_iff]

/-- Witness for `claim_C8` at concrete inputs: plain-and-absent is
falsy; a present value or a set metadata field makes it truthy. -/
theorem claim_C8_witness :
    propBool (freshProp .str .vNone) = false ∧
    propBool (freshProp .str (.vStr "x")) = true ∧
    propBool { freshProp .str .vNone with id_ := .vStr "i" } = true := by
  refine ⟨(claim_C8 (freshProp .str .vNone)).mpr ⟨by decide, by decide⟩, ?_, ?_⟩
  · decide
  · decide

/-- Claim C10: `from_dict` on a falsy bare scalar (empty string, `0`,
`False`) returns `None` rather than a plain property holding that
value, so a plain property with falsy serialized value (e.g.
`String("")`) does not round-trip through `to_dict`/`from_dict`. -/
theorem claim_C10 :
    (∀ V : Variant, fromDict V (.scalar (.vStr "")) = .ok none) ∧
    (∀ V : Variant, fromDict V (.scalar (.vInt 0)) = .ok none) ∧
    (∀ V : Variant, fromDict V (.scalar (.vBool false)) = .ok none) ∧
    toDict (freshProp .str (.vStr "")) = .ok (.scalar (.vStr "")) ∧
    roundTripDict .str (.vStr "") = .ok false := by
  refine ⟨fun V => ?_, fun V => ?_, fun V => ?_, by decide, by decide⟩
  all_goals unfold fromDict
  all_goals rw [if_pos (by decide)]

theorem mem_optEntry {kv : String × PyVal} {k : String} {v : PyVal}
    (h : kv ∈ optEntry k v) : kv = (k, v) ∧ PyVal.isNone v = false := by
  unfold optEntry at h
  by_cases hn : PyVal.isNone v = true
  · rw [if_pos hn] at h
    cases h
  · rw [if_neg hn] at h
    refine ⟨?_, by simpa using hn⟩
    simpa using h

theorem optEntry_mem_self (k : String) (v : PyVal) (h : PyVal.isNone v = false) :
    (k, v) ∈ optEntry k v := by
  unfold optEntry
  rw [h]
  simp

/-- `restEntries` is exactly the conditional emission of the field
table. -/
theorem restEntries_eq (p : Property) :
    restEntries p = optConcat (propFields p) := by
  simp [restEntries, patternEntries, propFields, optConcat]

theorem mem_optConcat {l : List (String × PyVal)} {kv : String × PyVal}
    (h : kv ∈ optConcat l) : kv ∈ l ∧ PyVal.isNone kv.2 = false := by
  induction l with
  | nil => cases h
  | cons a t ih =>
      rcases a with ⟨k2, v2⟩
      rcases List.mem_append.mp h with h2 | h2
      · obtain ⟨rfl, hnn⟩ := mem_optEntry h2
        exact ⟨List.mem_cons_self _ _, hnn⟩
      · obtain ⟨hmem, hnn⟩ := ih h2
        exact ⟨List.mem_cons_of_mem _ hmem, hnn⟩

theorem mem_optConcat_of {l : List (String × PyVal)} {k : String} {v : PyVal}
    (hm : (k, v) ∈ l) (hv : PyVal.isNone v = false) : (k, v) ∈ optConcat l := by
  induction l with
  | nil => cases hm
  | cons a t ih =>
      rcases List.mem_cons.mp hm with rfl | h2
      · exact List.mem_append_left _ (optEntry_mem_self k v hv)
      · exact List.mem_append_right _ (ih h2)

/-- Every entry `to_dict` emits after `value` is one of the optional
fields, with a non-`None` value. -/
theorem mem_restEntries_cases {p : Property} {kv : String × PyVal}
    (h : kv ∈ restEntries p) :
    kv ∈ propFields p ∧ PyVal.isNone kv.2 = false := by
  rw [restEntries_eq] at h
  exact mem_optConcat h

/-- Conversely, every non-`None` optional field shows up among the
emitted entries. -/
theorem propFields_mem_restEntries (p : Property) (k : String) (x : PyVal)
    (hm : (k, x) ∈ propFields p) (hx : PyVal.isNone x = false) :
    (k, x) ∈ restEntries p := by
  rw [restEntries_eq]
  exact mem_optConcat_of hm hx

/-- Shape of a `to_dict` result that is a mapping. -/
theorem toDict_dict_cases {p : Property} {d : List (String × PyVal)}
    (h : toDict p = .ok (.dict d)) :
    (PyVal.isNone p.value = true ∧ d = restEntries p) ∨
    (PyVal.isNone p.value = false ∧
      ∃ sv, serializedValueOf p = .ok sv ∧ d = ("value", sv) :: restEntries p) := by
  unfold toDict at h
  by_cases hpl : isPlainProp p = true
  · rw [if_pos hpl] at h
    cases hsv : serializedValueOf p with
    | error e => rw [hsv] at h; exact Except.noConfusion h
    | ok sv =>
        rw [hsv] at h
        exact MapForm.noConfusion (Except.ok.inj h)
  · rw [if_neg hpl] at h
    by_cases hv : PyVal.isNone p.value = true
    · rw [if_pos hv] at h
      have hd := Except.ok.inj h
      injection hd with hd
      exact Or.inl ⟨hv, hd.symm⟩
    · rw [if_neg hv] at h
      cases hsv : serializedValueOf p with
      | error e => rw [hsv] at h; exact Except.noConfusion h
      | ok sv =>
          rw [hsv] at h
          have hd := Except.ok.inj h
          injection hd with hd
          rw [Bool.not_eq_true] at hv
          exact Or.inr ⟨hv, sv, rfl, hd.symm⟩

theorem lookup_some_mem {d : List (String × PyVal)} {k : String} {v : PyVal}
    (h : d.lookup k = some v) : (k, v) ∈ d := by
  induction d with
  | nil => cases h
  | cons a t ih =>
      rcases a with ⟨k2, v2⟩
      by_cases hk : (k == k2) = true
      · simp only [List.lookup, hk] at h
        have hkk : k = k2 := by simpa using hk
        subst hkk
        have hv : v2 = v := Option.some.inj h
        subst hv
        exact List.mem_cons_self _ _
      · simp only [List.lookup, hk] at h
        exact List.mem_cons_of_mem _ (ih h)

theorem lookupD_eq_vNone_of_not_mem {d : List (String × PyVal)} {k : String}
    (h : ∀ v, (k, v) ∉ d) : lookupD d k = .vNone := by
  unfold lookupD
  cases hl : d.lookup k with
  | none => rfl
  | some v => exact absurd (lookup_some_mem hl) (h v)

/-- `to_dict` never emits a `datatype` key (the source comments the
emission out). -/
theorem toDict_no_datatype {p : Property} {d : List (String × PyVal)} {v : PyVal}
    (h : toDict p = .ok (.dict d)) : ("datatype", v) ∉ d := by
  intro hmem
  rcases toDict_dict_cases h with ⟨hv, rfl⟩ | ⟨hv, sv, hsv, rfl⟩
  · obtain ⟨hpf, _⟩ := mem_restEntries_cases hmem
    simp [propFields] at hpf
  · rcases List.mem_cons.mp hmem with heq | hmem2
    · simp at heq
    · obtain ⟨hpf, _⟩ := mem_restEntries_cases hmem2
      simp [propFields] at hpf

/-- The `datatype` read back by `_populate_from_obj`. -/
theorem fromObj_some_datatype {V : Variant} {node : Node} {p : Property}
    (h : fromObj V (some node) = .ok (some p)) : p.datatype = node.datatype := by
  unfold fromObj at h
  cases hmk : mkProp V .vNone with
  | error e => rw [hmk] at h; exact Except.noConfusion h
  | ok p0 =>
      rw [hmk] at h
      dsimp only at h
      cases hpop : populateFromObj V p0 node with
      | error e => rw [hpop] at h; exact Except.noConfusion h
      | ok q =>
          rw [hpop] at h
          dsimp only at h
          have hq : q = p := Option.some.inj (Except.ok.inj h)
          subst hq
          unfold populateFromObj at hpop
          cases hsv : setValue V (denormalizeFromXml node.valueOf_) with
          | error e => rw [hsv] at hpop; exact Except.noConfusion hpop
          | ok w =>
              rw [hsv] at hpop
              have hrec := Except.ok.inj hpop
              rw [← hrec]

/-- The `datatype` read back by `_populate_from_dict` on a mapping. -/
theorem fromDict_dict_datatype {V : Variant} {d : List (String × PyVal)} {p : Property}
    (h : fromDict V (.dict d) = .ok (some p)) : p.datatype = lookupD d "datatype" := by
  unfold fromDict at h
  by_cases hf : isFalsyMap (.dict d) = true
  · rw [if_pos hf] at h
    exact Option.noConfusion (Except.ok.inj h)
  · rw [if_neg hf] at h
    cases hmk : mkProp V .vNone with
    | error e => rw [hmk] at h; exact Except.noConfusion h
    | ok p0 =>
        rw [hmk] at h
        dsimp only at h
        cases hpop : populateFromDict V p0 (.dict d) with
        | error e => rw [hpop] at h; exact Except.noConfusion h
        | ok q =>
            rw [hpop] at h
            dsimp only at h
            have hq : q = p := Option.some.inj (Except.ok.inj h)
            subst hq
            unfold populateFromDict at hpop
            dsimp only at hpop
            cases hsv : setValue V (lookupD d "value") with
            | error e => rw [hsv] at hpop; exact Except.noConfusion hpop
            | ok w =>
                rw [hsv] at hpop
                have hrec := Except.ok.inj hpop
                rw [← hrec]

/-- `to_obj` never sets the node's datatype. -/
theorem toObj_datatype {p : Property} {n : Node} (h : toObj p = .ok n) :
    n.datatype = .vNone := by
  unfold toObj at h
  cases hsv : serializedValueOf p with
  | error e => rw [hsv] at h; exact Except.noConfusion h
  | ok sv =>
      rw [hsv] at h
      have hrec := Except.ok.inj h
      rw [← hrec]

/-- Claim C5: `to_dict` of a plain property is the bare serialized
value; `to_dict` of a non-plain property is a mapping that has a
`value` key exactly when `value` is not `None` (bound to the serialized
value), has each non-`None` optional field under its own key and
nothing else, and never has a `datatype` key; in particular
`String("hello")` serializes to `"hello"` and a `String` `"hello"` with
id `"x"` serializes to `{"value": "hello", "id": "x"}`. -/
theorem claim_C5 :
    (∀ (p : Property) (sv : PyVal), isPlainProp p = true → serializedValueOf p = .ok sv →
        toDict p = .ok (.scalar sv)) ∧
    (∀ (p : Property) (d : List (String × PyVal)) (v : PyVal),
        toDict p = .ok (.dict d) → ("datatype", v) ∉ d) ∧
    (∀ (p : Property) (d : List (String × PyVal)),
        toDict p = .ok (.dict d) → PyVal.isNone p.value = true → ∀ v, ("value", v) ∉ d) ∧
    (∀ (p : Property) (d : List (String × PyVal)),
        toDict p = .ok (.dict d) → PyVal.isNone p.value = false →
          ∃ sv, serializedValueOf p = .ok sv ∧ ("value", sv) ∈ d) ∧
    (∀ (p : Property) (d : List (String × PyVal)) (k : String) (x : PyVal),
        toDict p = .ok (.dict d) → (k, x) ∈ propFields p → PyVal.isNone x = false → (k, x) ∈ d) ∧
    (∀ (p : Property) (d : List (String × PyVal)) (k : String) (x : PyVal),
        toDict p = .ok (.dict d) → (k, x) ∈ d →
          (k = "value" ∧ serializedValueOf p = .ok x) ∨
          ((k, x) ∈ propFields p ∧ PyVal.isNone x = false)) ∧
    toDict (freshProp .str (.vStr "hello")) = .ok (.scalar (.vStr "hello")) ∧
    toDict { freshProp .str (.vStr "hello") with id_ := .vStr "x" } = .ok (.dict [("value", .vStr "hello"), ("id", .vStr "x")]) := by
  have hplain : ∀ (p : Property) (sv : PyVal), isPlainProp p = true →
      serializedValueOf p = .ok sv → toDict p = .ok (.scalar sv) := by
    intro p sv hpl hsv
    unfold toDict
    rw [if_pos hpl, hsv]
    rfl
  have hnoval : ∀ (p : Property) (d : List (String × PyVal)),
      toDict p = .ok (.dict d) → PyVal.isNone p.value = true → ∀ v, ("value", v) ∉ d := by
    intro p d h hv v hmem
    rcases toDict_dict_cases h with ⟨_, rfl⟩ | ⟨hv2, _, _, _⟩
    · obtain ⟨hpf, _⟩ := mem_restEntries_cases hmem
      simp [propFields] at hpf
    · rw [hv] at hv2
      cases hv2
  have hvalkey : ∀ (p : Property) (d : List (String × PyVal)),
      toDict p = .ok (.dict d) → PyVal.isNone p.value = false →
        ∃ sv, serializedValueOf p = .ok sv ∧ ("value", sv) ∈ d := by
    intro p d h hv
    rcases toDict_dict_cases h with ⟨hv2, _⟩ | ⟨_, sv, hsv, rfl⟩
    · rw [hv] at hv2
      cases hv2
    · exact ⟨sv, hsv, List.mem_cons_self _ _⟩
  have hfields : ∀ (p : Property) (d : List (String × PyVal)) (k : String) (x : PyVal),
      toDict p = .ok (.dict d) → (k, x) ∈ propFields p → PyVal.isNone x = false → (k, x) ∈ d := by
    intro p d k x h hpf hx
    rcases toDict_dict_cases h with ⟨_, rfl⟩ | ⟨_, sv, _, rfl⟩
    · exact propFields_mem_restEntries p k x hpf hx
    · exact List.mem_cons_of_mem _ (propFields_mem_restEntries p k x hpf hx)
  have honly : ∀ (p : Property) (d : List (String × PyVal)) (k : String) (x : PyVal),
      toDict p = .ok (.dict d) → (k, x) ∈ d →
        (k = "value" ∧ serializedValueOf p = .ok x) ∨
        ((k, x) ∈ propFields p ∧ PyVal.isNone x = false) := by
    intro p d k x h hmem
    rcases toDict_dict_cases h with ⟨_, rfl⟩ | ⟨_, sv, hsv, rfl⟩
    · exact Or.inr (mem_restEntries_cases hmem)
    · rcases List.mem_cons.mp hmem with heq | hmem2
      · have hk : k = "value" := congrArg Prod.fst heq
        have hxv : x = sv := congrArg Prod.snd heq
        subst hxv
        exact Or.inl ⟨hk, hsv⟩
      · exact Or.inr (mem_restEntries_cases hmem2)
  exact ⟨hplain, fun p d v h => toDict_no_datatype h, hnoval, hvalkey, hfields, honly,
    by decide, by decide⟩

/-- Witness for `claim_C5` at the spec's own examples. -/
theorem claim_C5_witness :
    toDict (freshProp .str (.vStr "hello")) = .ok (.scalar (.vStr "hello")) ∧
    (("datatype", PyVal.vStr "string") ∉ [("value", PyVal.vStr "hello"), ("id", PyVal.vStr "x")]) ∧
    (("id", PyVal.vStr "x") ∈ [("value", PyVal.vStr "hello"), ("id", PyVal.vStr "x")]) ∧
    (∃ sv, serializedValueOf { freshProp .str (.vStr "hello") with id_ := .vStr "x" } = .ok sv ∧
      ("value", sv) ∈ [("value", PyVal.vStr "hello"), ("id", PyVal.vStr "x")]) :=
  ⟨claim_C5.1 (freshProp .str (.vStr "hello")) (.vStr "hello") (by decide) (by decide),
   claim_C5.2.1 { freshProp .str (.vStr "hello") with id_ := .vStr "x" } _ _ (by decide),
   claim_C5.2.2.2.2.1 { freshProp .str (.vStr "hello") with id_ := .vStr "x" } _ "id" (.vStr "x")
     (by decide) (by decide) (by decide),
   claim_C5.2.2.2.1 { freshProp .str (.vStr "hello") with id_ := .vStr "x" } _ (by decide) (by decide)⟩

/-- Claim C9: `from_obj` sets `datatype` to exactly what the node's
accessor supplies and `from_dict` on a mapping to exactly the mapping's
`datatype` key (`None` when absent), overwriting the constructor's
variant tag; since `to_obj`/`to_dict` never emit `datatype`,
deserializing their output yields a property whose `datatype` is
`None`, not the variant's tag. -/
theorem claim_C9 :
    (∀ (V : Variant) (node : Node) (p : Property),
        fromObj V (some node) = .ok (some p) → p.datatype = node.datatype) ∧
    (∀ (V : Variant) (d : List (String × PyVal)) (p : Property),
        fromDict V (.dict d) = .ok (some p) → p.datatype = lookupD d "datatype") ∧
    (∀ (p : Property) (n : Node), toObj p = .ok n → n.datatype = .vNone) ∧
    (∀ (V : Variant) (p : Property) (n : Node) (q : Property),
        toObj p = .ok n → fromObj V (some n) = .ok (some q) → q.datatype = .vNone) ∧
    (∀ (V : Variant) (p : Property) (d : List (String × PyVal)) (q : Property),
        toDict p = .ok (.dict d) → fromDict V (.dict d) = .ok (some q) → q.datatype = .vNone) := by
  refine ⟨fun V node p h => fromObj_some_datatype h,
          fun V d p h => fromDict_dict_datatype h,
          fun p n h => toObj_datatype h,
          fun V p n q h1 h2 => ?_,
          fun V p d q h1 h2 => ?_⟩
  · rw [fromObj_some_datatype h2, toObj_datatype h1]
  · rw [fromDict_dict_datatype h2]
    exact lookupD_eq_vNone_of_not_mem fun v => toDict_no_datatype h1

/-- Witness for `claim_C9` at concrete nodes and mappings. -/
theorem claim_C9_witness :
    ({ freshProp .str (.vStr "v") with datatype := .vStr "foo" } : Property).datatype =
      ({ valueOf_ := .vStr "v", datatype := .vStr "foo" } : Node).datatype ∧
    ({ freshProp .str (.vStr "v") with datatype := .vNone, id_ := .vStr "x" } : Property).datatype =
      lookupD [("value", .vStr "v"), ("id", .vStr "x")] "datatype" ∧
    ({ valueOf_ := .vStr "v" } : Node).datatype = .vNone ∧
    ({ freshProp .str (.vStr "v") with datatype := .vNone } : Property).datatype = .vNone ∧
    ({ freshProp .str (.vStr "hello") with datatype := .vNone, id_ := .vStr "x" } : Property).datatype = .vNone :=
  ⟨claim_C9.1 .str { valueOf_ := .vStr "v", datatype := .vStr "foo" } _ (by decide),
   claim_C9.2.1 .str [("value", .vStr "v"), ("id", .vStr "x")] _ (by decide),
   claim_C9.2.2.1 (freshProp .str (.vStr "v")) _ (by decide),
   claim_C9.2.2.2.1 .str (freshProp .str (.vStr "v")) { valueOf_ := .vStr "v" } _ (by decide) (by decide),
   claim_C9.2.2.2.2 .str { freshProp .str (.vStr "hello") with id_ := .vStr "x" }
     [("value", .vStr "hello"), ("id", .vStr "x")] _ (by decide) (by decide)⟩

end Cybox
